import Mathlib

/-!
Shallow embedding of the command-limiting and state-sequencing logic of
`vesc_driver/src/vesc_can_driver.cpp` (the VescCanDriver node).

Doubles are modelled as elements of a linear ordered field; the claim
theorems instantiate at `ℚ` (exact evaluation) or at `ℝ` where the
constant `M_PI` appears.
-/

namespace VescDriver

variable {α : Type} [LinearOrderedField α]

/-- The two driver modes of the state machine in `timerCallback`:
`MODE_INITIALIZING` and `MODE_OPERATING`. -/
inductive DriverMode : Type where
  | initializing : DriverMode
  | operating : DriverMode
deriving DecidableEq

/-- `VescCanDriver::CommandLimit`: an optional lower and upper clamp for
one command channel (the `name` member feeds diagnostics only and is
omitted). -/
structure CommandLimit (α : Type) where
  lower : Option α
  upper : Option α
deriving DecidableEq

/-- The second early-return check of `CommandLimit::clip`:
`if (upper && value > upper) return *upper; return value;`. -/
def clipUpper (upper : Option α) (value : α) : α :=
  match upper with
  | some hi => if value > hi then hi else value
  | none => value

/-- `VescCanDriver::CommandLimit::clip` (vesc_can_driver.cpp:348-365):
`if (lower && value < lower) return *lower;` then the upper check, then
`return value;`.  Diagnostics are observational and omitted. -/
def clip (cl : CommandLimit α) (value : α) : α :=
  match cl.lower with
  | some lo => if value < lo then lo else clipUpper cl.upper value
  | none => clipUpper cl.upper value

/-- The first block of the `CommandLimit` constructor
(vesc_can_driver.cpp:280-296): resolve the lower bound from the declared
parameter value `param_min` and the feasible bounds `min_lower`,
`max_upper`.  `if (min_lower && param < *min_lower) lower = *min_lower;
else if (max_upper && param > *max_upper) lower = *max_upper; else
lower = param;` and, when the parameter is not set,
`else if (min_lower) lower = *min_lower;` (otherwise `lower` stays
unset). -/
def resolveLower (param_min min_lower max_upper : Option α) : Option α :=
  match param_min with
  | some p =>
    match min_lower, max_upper with
    | some ml, some mu => if p < ml then some ml else if p > mu then some mu else some p
    | some ml, none => if p < ml then some ml else some p
    | none, some mu => if p > mu then some mu else some p
    | none, none => some p
  | none => min_lower

/-- The second block of the `CommandLimit` constructor
(vesc_can_driver.cpp:302-318): identical resolution applied to
`param_max`, with fallback `else if (max_upper) upper = *max_upper;`. -/
def resolveUpper (param_max min_lower max_upper : Option α) : Option α :=
  match param_max with
  | some p =>
    match min_lower, max_upper with
    | some ml, some mu => if p < ml then some ml else if p > mu then some mu else some p
    | some ml, none => if p < ml then some ml else some p
    | none, some mu => if p > mu then some mu else some p
    | none, none => some p
  | none => max_upper

/-- `VescCanDriver::CommandLimit::CommandLimit`
(vesc_can_driver.cpp:267-346): resolve both bounds, then
`if (upper && lower && *lower > *upper)` swap them. -/
def commandLimitInit (param_min param_max min_lower max_upper : Option α) :
    CommandLimit α :=
  match resolveLower param_min min_lower max_upper,
        resolveUpper param_max min_lower max_upper with
  | some lo, some hi => if lo > hi then ⟨some hi, some lo⟩ else ⟨some lo, some hi⟩
  | some lo, none => ⟨some lo, none⟩
  | none, some hi => ⟨none, some hi⟩
  | none, none => ⟨none, none⟩

/-- The constructor calls
`declare_parameter(name + "_min", rclcpp::ParameterValue(0.0))`
(vesc_can_driver.cpp:277-278, 299-300).  rclcpp semantics: the returned
parameter value is the user-configured value when one was supplied,
otherwise the declared default `0.0`; because the default is a concrete
double, the returned type is never `PARAMETER_NOT_SET`. -/
def declareParameter (configured : Option α) : Option α :=
  some (configured.getD 0)

/-- The user-facing configuration surface read at startup: the optional
`<channel>_min` / `<channel>_max` overrides and the `vesc_id`
parameter. -/
structure UserConfig (α : Type) where
  duty_cycle_min : Option α
  duty_cycle_max : Option α
  current_min : Option α
  current_max : Option α
  brake_min : Option α
  brake_max : Option α
  speed_min : Option α
  speed_max : Option α
  position_min : Option α
  position_max : Option α
  servo_min : Option α
  servo_max : Option α
  vesc_id : Option ℕ

/-- A configuration in which the user set no parameter at all. -/
def emptyConfig (α : Type) [LinearOrderedField α] : UserConfig α :=
  ⟨none, none, none, none, none, none, none, none, none, none, none, none, none⟩

/-- The mutable driver members relevant to the core: the six per-channel
`CommandLimit`s, `driver_mode_`, `state_msg_received_` and
`controller_id_`. -/
structure Driver (α : Type) where
  duty_cycle_limit : CommandLimit α
  current_limit : CommandLimit α
  brake_limit : CommandLimit α
  speed_limit : CommandLimit α
  position_limit : CommandLimit α
  servo_limit : CommandLimit α
  driver_mode : DriverMode
  state_msg_received : Bool
  controller_id : ℕ
deriving DecidableEq

/-- `VescCanDriver::VescCanDriver` (vesc_can_driver.cpp:52-110): the six
limits are built with feasible bounds `[-1,1]` (duty_cycle), none
(current, brake, speed, position) and `[0,1]` (servo); `driver_mode_`
starts as `MODE_INITIALIZING`, `state_msg_received_` as false, and
`controller_id_ = declare_parameter<uint8_t>("vesc_id", 0x68)`. -/
def driverInit (cfg : UserConfig α) : Driver α where
  duty_cycle_limit := commandLimitInit (declareParameter cfg.duty_cycle_min)
    (declareParameter cfg.duty_cycle_max) (some (-1)) (some 1)
  current_limit := commandLimitInit (declareParameter cfg.current_min)
    (declareParameter cfg.current_max) none none
  brake_limit := commandLimitInit (declareParameter cfg.brake_min)
    (declareParameter cfg.brake_max) none none
  speed_limit := commandLimitInit (declareParameter cfg.speed_min)
    (declareParameter cfg.speed_max) none none
  position_limit := commandLimitInit (declareParameter cfg.position_min)
    (declareParameter cfg.position_max) none none
  servo_limit := commandLimitInit (declareParameter cfg.servo_min)
    (declareParameter cfg.servo_max) (some 0) (some 1)
  driver_mode := DriverMode.initializing
  state_msg_received := false
  controller_id := cfg.vesc_id.getD 0x68

/-- `VescCanDriver::timerCallback` (vesc_can_driver.cpp:125-149): while
`MODE_INITIALIZING`, switch to `MODE_OPERATING` once
`state_msg_received_` is set; in `MODE_OPERATING`, do nothing. -/
def timerCallback (d : Driver α) : Driver α :=
  match d.driver_mode with
  | DriverMode.initializing =>
    if d.state_msg_received then { d with driver_mode := DriverMode.operating } else d
  | DriverMode.operating => d

/-- `VescCanDriver::dutyCycleCallback` (vesc_can_driver.cpp:192-197).
The guard is `if (driver_mode_ = MODE_OPERATING)` — an assignment, not a
comparison.  Modelled from the spec: the numeric value of
`MODE_OPERATING` lives in `vesc_can_driver.hpp`, which is not part of
the available sources; per spec section 4.2 the assignment makes the
guard always true, so the callback unconditionally forces the mode to
`MODE_OPERATING` and issues the hardware call.  The second component is
the value passed to `vesc_.SetDutyCycle` (`none` would mean no call). -/
def dutyCycleCallback (d : Driver α) (duty_cycle : α) : Driver α × Option α :=
  ({ d with driver_mode := DriverMode.operating },
   some (clip d.duty_cycle_limit duty_cycle))

/-- `VescCanDriver::currentCallback` (vesc_can_driver.cpp:204-209); same
assignment-guard as `dutyCycleCallback`. -/
def currentCallback (d : Driver α) (current : α) : Driver α × Option α :=
  ({ d with driver_mode := DriverMode.operating },
   some (clip d.current_limit current))

/-- `VescCanDriver::brakeCallback` (vesc_can_driver.cpp:216-221); same
assignment-guard as `dutyCycleCallback`. -/
def brakeCallback (d : Driver α) (brake : α) : Driver α × Option α :=
  ({ d with driver_mode := DriverMode.operating },
   some (clip d.brake_limit brake))

/-- `VescCanDriver::speedCallback` (vesc_can_driver.cpp:229-235); same
assignment-guard as `dutyCycleCallback`. -/
def speedCallback (d : Driver α) (speed : α) : Driver α × Option α :=
  ({ d with driver_mode := DriverMode.operating },
   some (clip d.speed_limit speed))

/-- `VescCanDriver::positionCallback` (vesc_can_driver.cpp:241-248);
same assignment-guard as `dutyCycleCallback`.  The clipped radian value
is converted by `* 180.0 / M_PI` before `vesc_.SetPosition`; the
constant `M_PI` is passed as the parameter `piVal` (instantiated with
`Real.pi` in the theorems, since `ℚ` cannot hold it). -/
def positionCallback (piVal : α) (d : Driver α) (position : α) :
    Driver α × Option α :=
  ({ d with driver_mode := DriverMode.operating },
   some (clip d.position_limit position * 180 / piVal))

/-- `VescCanDriver::servoCallback` (vesc_can_driver.cpp:253-265); same
assignment-guard as `dutyCycleCallback`.  Second component: the value
passed to `vesc_.SetServo`; third: the clipped value republished on
`sensors/servo_position_command`. -/
def servoCallback (d : Driver α) (servo : α) : Driver α × Option α × Option α :=
  ({ d with driver_mode := DriverMode.operating },
   some (clip d.servo_limit servo), some (clip d.servo_limit servo))

/-- The structured telemetry sample delivered by the hardware interface
(`robosw::StampedVescState`), fields as read in
`VescStateUpdatedCallback`. -/
structure VescStateIn (α : Type) where
  voltage_input : α
  current_motor : α
  current_input : α
  duty_cycle : α
  speed : α
  charge_drawn : α
  charge_regen : α
  energy_drawn : α
  energy_regen : α
  displacement : α
  distance_traveled : α
  fault_code : ℤ
  temperature_pcb : α
deriving DecidableEq

/-- The published `vesc_msgs::msg::VescState`, fields as written in
`VescStateUpdatedCallback` (header stamp omitted). -/
structure VescStateOut (α : Type) where
  voltage_input : α
  current_motor : α
  current_input : α
  avg_id : α
  avg_iq : α
  duty_cycle : α
  speed : α
  charge_drawn : α
  charge_regen : α
  energy_drawn : α
  energy_regen : α
  displacement : α
  distance_traveled : α
  fault_code : ℤ
  pid_pos_now : α
  controller_id : ℕ
  ntc_temp_mos1 : α
  ntc_temp_mos2 : α
  ntc_temp_mos3 : α
  avg_vd : α
  avg_vq : α
deriving DecidableEq

/-- The field mapping of `VescCanDriver::VescStateUpdatedCallback`
(vesc_can_driver.cpp:151-185): pass-through fields copied, `avg_id`,
`avg_iq`, `pid_pos_now`, `avg_vd`, `avg_vq` set to 0, `controller_id`
set to the literal `0x68`, and all three MOSFET temperatures set to the
single `temperature_pcb` of the input. -/
def mapVescState (msg : VescStateIn α) : VescStateOut α where
  voltage_input := msg.voltage_input
  current_motor := msg.current_motor
  current_input := msg.current_input
  avg_id := 0
  avg_iq := 0
  duty_cycle := msg.duty_cycle
  speed := msg.speed
  charge_drawn := msg.charge_drawn
  charge_regen := msg.charge_regen
  energy_drawn := msg.energy_drawn
  energy_regen := msg.energy_regen
  displacement := msg.displacement
  distance_traveled := msg.distance_traveled
  fault_code := msg.fault_code
  pid_pos_now := 0
  controller_id := 0x68
  ntc_temp_mos1 := msg.temperature_pcb
  ntc_temp_mos2 := msg.temperature_pcb
  ntc_temp_mos3 := msg.temperature_pcb
  avg_vd := 0
  avg_vq := 0

/-- `VescCanDriver::VescStateUpdatedCallback` (vesc_can_driver.cpp:151-185):
sets the `state_msg_received_` latch and publishes the mapped sample on
`sensors/core`, in every driver mode (there is no mode check).  The
second component is the published message. -/
def vescStateUpdatedCallback (d : Driver α) (msg : VescStateIn α) :
    Driver α × VescStateOut α :=
  ({ d with state_msg_received := true }, mapVescState msg)

/-- The events a live driver instance can receive: the 50 Hz timer tick,
a telemetry arrival, and the six command subscriptions. -/
inductive Event (α : Type) where
  | tick : Event α
  | telemetry : VescStateIn α → Event α
  | dutyCycleCmd : α → Event α
  | currentCmd : α → Event α
  | brakeCmd : α → Event α
  | speedCmd : α → Event α
  | positionCmd : α → Event α
  | servoCmd : α → Event α

/-- One step of the driver: dispatch an event to the callback the node
registered for it, keeping the resulting driver state. -/
def step (piVal : α) (d : Driver α) (e : Event α) : Driver α :=
  match e with
  | Event.tick => timerCallback d
  | Event.telemetry msg => (vescStateUpdatedCallback d msg).1
  | Event.dutyCycleCmd v => (dutyCycleCallback d v).1
  | Event.currentCmd v => (currentCallback d v).1
  | Event.brakeCmd v => (brakeCallback d v).1
  | Event.speedCmd v => (speedCallback d v).1
  | Event.positionCmd v => (positionCallback piVal d v).1
  | Event.servoCmd v => (servoCallback d v).1

/-- Run the driver over a sequence of events. -/
def run (piVal : α) (d : Driver α) (es : List (Event α)) : Driver α :=
  es.foldl (step piVal) d


/-! ## Helper lemmas -/

/-- The bounds of any constructed `CommandLimit` are ordered whenever both
are set: the constructor's final swap step guarantees it. -/
theorem init_lower_le_upper (pm px ml mu : Option α) (lo hi : α)
    (hl : (commandLimitInit pm px ml mu).lower = some lo)
    (hu : (commandLimitInit pm px ml mu).upper = some hi) : lo ≤ hi := by
  rcases hL : resolveLower pm ml mu with _ | a <;>
    rcases hU : resolveUpper px ml mu with _ | b <;>
    simp [commandLimitInit, hL, hU] at hl hu
  split_ifs at hl hu with h <;> simp at hl hu <;> subst hl <;> subst hu <;> linarith

/-- `clip` is idempotent on any `CommandLimit` whose set bounds are
ordered. -/
theorem clip_clip_of_ordered (cl : CommandLimit α)
    (hord : ∀ lo hi, cl.lower = some lo → cl.upper = some hi → lo ≤ hi) (v : α) :
    clip cl (clip cl v) = clip cl v := by
  obtain ⟨l, u⟩ := cl
  rcases l with _ | lo <;> rcases u with _ | hi <;> simp only [clip, clipUpper]
  · split_ifs <;> rfl
  · split_ifs <;> rfl
  · have hlohi : lo ≤ hi := hord lo hi rfl rfl
    split_ifs <;> first | rfl | linarith

/-- `resolveLower` applied to a set parameter always produces a set
bound. -/
theorem resolveLower_some (p : α) (ml mu : Option α) :
    ∃ a, resolveLower (some p) ml mu = some a := by
  rcases ml with _ | m <;> rcases mu with _ | u <;> simp only [resolveLower] <;>
    first
    | exact ⟨_, rfl⟩
    | split_ifs <;> exact ⟨_, rfl⟩

/-- `resolveUpper` applied to a set parameter always produces a set
bound. -/
theorem resolveUpper_some (p : α) (ml mu : Option α) :
    ∃ b, resolveUpper (some p) ml mu = some b := by
  rcases ml with _ | m <;> rcases mu with _ | u <;> simp only [resolveUpper] <;>
    first
    | exact ⟨_, rfl⟩
    | split_ifs <;> exact ⟨_, rfl⟩

/-- The case analysis of the parameter-set branch of the bound
resolution, shared by the lower and upper blocks of the constructor. -/
theorem resolveLower_cases (p : α) (ml mu : Option α) :
    (∀ fl, ml = some fl → p < fl → resolveLower (some p) ml mu = some fl)
    ∧ (∀ fu, mu = some fu → (∀ fl, ml = some fl → ¬ p < fl) → fu < p →
        resolveLower (some p) ml mu = some fu)
    ∧ ((∀ fl, ml = some fl → ¬ p < fl) → (∀ fu, mu = some fu → ¬ fu < p) →
        resolveLower (some p) ml mu = some p) := by
  refine ⟨?_, ?_, ?_⟩
  · intro fl hml hp
    subst hml
    rcases mu with _ | u <;> simp [resolveLower, hp]
  · intro fu hmu hno hp
    subst hmu
    rcases ml with _ | m
    · simp [resolveLower, hp]
    · have hm := hno m rfl
      simp [resolveLower, hp, hm]
  · intro hno hup
    rcases ml with _ | m <;> rcases mu with _ | u
    · simp [resolveLower]
    · simp [resolveLower, hup u rfl]
    · simp [resolveLower, hno m rfl]
    · simp [resolveLower, hno m rfl, hup u rfl]

/-- Every constructed `CommandLimit` with both scrutinees set has both
bounds set. -/
theorem commandLimitInit_isSome (pm px : α) (ml mu : Option α) :
    (commandLimitInit (some pm) (some px) ml mu).lower.isSome = true
    ∧ (commandLimitInit (some pm) (some px) ml mu).upper.isSome = true := by
  obtain ⟨a, ha⟩ := resolveLower_some pm ml mu
  obtain ⟨b, hb⟩ := resolveUpper_some px ml mu
  simp only [commandLimitInit, ha, hb]
  split_ifs <;> exact ⟨rfl, rfl⟩

/-- No event moves a driver out of OPERATING mode. -/
theorem step_preserves_operating (piVal : α) (d : Driver α) (e : Event α)
    (h : d.driver_mode = DriverMode.operating) :
    (step piVal d e).driver_mode = DriverMode.operating := by
  cases e <;>
    simp [step, timerCallback, vescStateUpdatedCallback, dutyCycleCallback,
      currentCallback, brakeCallback, speedCallback, positionCallback,
      servoCallback, h]

/-- No event sequence moves a driver out of OPERATING mode. -/
theorem run_preserves_operating (piVal : α) (es : List (Event α)) :
    ∀ d : Driver α, d.driver_mode = DriverMode.operating →
      (run piVal d es).driver_mode = DriverMode.operating := by
  induction es with
  | nil => intro d h; simpa [run] using h
  | cons e es ih =>
    intro d h
    simpa [run] using ih (step piVal d e) (step_preserves_operating piVal d e h)

/-! ## Claim theorems -/

/-- C3: `clip` is total and never raises an error: it returns `lower`
when `lower` is set and the value is below it, else `upper` when `upper`
is set and the value is above it, else the value unchanged; when both
bounds are set (an ordered pair, as every constructed `CommandLimit`
has) the result lies in `[lower, upper]`, and when neither bound is set
the result is the value itself. -/
theorem clip_total (cl : CommandLimit ℚ) (v : ℚ) :
    (∀ lo, cl.lower = some lo → v < lo → clip cl v = lo)
    ∧ (∀ hi, cl.upper = some hi → (∀ lo, cl.lower = some lo → ¬ v < lo) →
        hi < v → clip cl v = hi)
    ∧ ((∀ lo, cl.lower = some lo → ¬ v < lo) →
        (∀ hi, cl.upper = some hi → ¬ hi < v) → clip cl v = v)
    ∧ (∀ lo hi, cl.lower = some lo → cl.upper = some hi → lo ≤ hi →
        lo ≤ clip cl v ∧ clip cl v ≤ hi)
    ∧ (cl.lower = none → cl.upper = none → clip cl v = v) := by
  obtain ⟨l, u⟩ := cl
  refine ⟨?_, ?_, ?_, ?_, ?_⟩
  · intro lo hl hv
    subst hl
    simp [clip, hv]
  · intro hi hu hno hv
    subst hu
    rcases l with _ | lo
    · simp [clip, clipUpper, hv]
    · have hlo := hno lo rfl
      simp [clip, clipUpper, hv, hlo]
  · intro hno hup
    rcases l with _ | lo <;> rcases u with _ | hi
    · simp [clip, clipUpper]
    · simp [clip, clipUpper, hup hi rfl]
    · simp [clip, clipUpper, hno lo rfl]
    · simp [clip, clipUpper, hno lo rfl, hup hi rfl]
  · intro lo hi hl hu hord
    subst hl
    subst hu
    simp only [clip, clipUpper]
    constructor <;> split_ifs <;> linarith
  · intro hl hu
    subst hl
    subst hu
    simp [clip, clipUpper]

/-- Witness for C3: the duty-cycle-shaped limit [0, 1] clips 2 down to
the upper bound 1. -/
theorem clip_total_witness :
    clip (⟨some 0, some 1⟩ : CommandLimit ℚ) 2 = 1 :=
  (clip_total ⟨some 0, some 1⟩ 2).2.1 1 rfl
    (by intro lo h; simp at h; subst h; norm_num) (by norm_num)

/-- C4: after construction, whenever both resolved bounds are set they
satisfy `lower ≤ upper`: an inverted resolved pair is swapped by the
constructor rather than rejected. -/
theorem commandLimitInit_ordered (pm px ml mu : Option ℚ) :
    (∀ lo hi, (commandLimitInit pm px ml mu).lower = some lo →
        (commandLimitInit pm px ml mu).upper = some hi → lo ≤ hi)
    ∧ (∀ a b, resolveLower pm ml mu = some a → resolveUpper px ml mu = some b →
        b < a → commandLimitInit pm px ml mu = ⟨some b, some a⟩) := by
  constructor
  · exact fun lo hi hl hu => init_lower_le_upper pm px ml mu lo hi hl hu
  · intro a b hA hB hba
    simp [commandLimitInit, hA, hB, hba]

/-- Witness for C4: configured pair (min, max) = (5, 3) is inverted and
gets swapped into the ordered pair (3, 5). -/
theorem commandLimitInit_ordered_witness :
    commandLimitInit (some 5) (some 3) none none = (⟨some 3, some 5⟩ : CommandLimit ℚ) :=
  (commandLimitInit_ordered (some 5) (some 3) none none).2 5 3 rfl rfl (by norm_num)

/-- C5: for every constructed `CommandLimit` and every value, `clip` is
idempotent. -/
theorem clip_idempotent (pm px ml mu : Option ℚ) (v : ℚ) :
    clip (commandLimitInit pm px ml mu) (clip (commandLimitInit pm px ml mu) v)
      = clip (commandLimitInit pm px ml mu) v :=
  clip_clip_of_ordered (commandLimitInit pm px ml mu)
    (fun lo hi hl hu => init_lower_le_upper pm px ml mu lo hi hl hu) v

/-- C6: when an override parameter is set, bound resolution snaps an
override below the feasible lower bound to the feasible lower bound,
else snaps an override above the feasible upper bound to the feasible
UPPER bound (the opposite side), else keeps the override; the same
resolution is used for the lower and the upper override. -/
theorem override_resolution_cases (p : ℚ) (ml mu : Option ℚ) :
    (∀ fl, ml = some fl → p < fl → resolveLower (some p) ml mu = some fl)
    ∧ (∀ fu, mu = some fu → (∀ fl, ml = some fl → ¬ p < fl) → fu < p →
        resolveLower (some p) ml mu = some fu)
    ∧ ((∀ fl, ml = some fl → ¬ p < fl) → (∀ fu, mu = some fu → ¬ fu < p) →
        resolveLower (some p) ml mu = some p)
    ∧ (∀ fl, ml = some fl → p < fl → resolveUpper (some p) ml mu = some fl)
    ∧ (∀ fu, mu = some fu → (∀ fl, ml = some fl → ¬ p < fl) → fu < p →
        resolveUpper (some p) ml mu = some fu)
    ∧ ((∀ fl, ml = some fl → ¬ p < fl) → (∀ fu, mu = some fu → ¬ fu < p) →
        resolveUpper (some p) ml mu = some p) := by
  have hlow := resolveLower_cases p ml mu
  have hsame : resolveUpper (some p) ml mu = resolveLower (some p) ml mu := by
    rcases ml with _ | m <;> rcases mu with _ | u <;> rfl
  refine ⟨hlow.1, hlow.2.1, hlow.2.2, ?_, ?_, ?_⟩
  · intro fl hml hp
    rw [hsame]
    exact hlow.1 fl hml hp
  · intro fu hmu hno hp
    rw [hsame]
    exact hlow.2.1 fu hmu hno hp
  · intro hno hup
    rw [hsame]
    exact hlow.2.2 hno hup

/-- Witness for C6: with feasible range [-1, 1], a lower override of 5
(above the feasible maximum) snaps the LOWER bound to the feasible
UPPER bound 1. -/
theorem override_resolution_cases_witness :
    resolveLower (some 5) (some (-1)) (some 1) = (some 1 : Option ℚ) :=
  (override_resolution_cases 5 (some (-1)) (some 1)).2.1 1 rfl
    (by intro fl h; simp at h; subst h; norm_num) (by norm_num)

/-- C9: because each `<channel>_min` / `<channel>_max` parameter is
declared with the concrete default 0.0, the parameter-not-set branch of
bound resolution never runs and both bounds are always set after
construction; for the channels with no feasible bounds and no overrides
(current, brake, speed, position) the resolved bounds are
`lower = upper = 0` and `clip` maps every input to 0. -/
theorem declared_defaults_force_bounds (userMin userMax ml mu : Option ℚ) (v : ℚ) :
    (commandLimitInit (declareParameter userMin) (declareParameter userMax) ml mu).lower.isSome = true
    ∧ (commandLimitInit (declareParameter userMin) (declareParameter userMax) ml mu).upper.isSome = true
    ∧ (driverInit (emptyConfig ℚ)).current_limit = ⟨some 0, some 0⟩
    ∧ (driverInit (emptyConfig ℚ)).brake_limit = ⟨some 0, some 0⟩
    ∧ (driverInit (emptyConfig ℚ)).speed_limit = ⟨some 0, some 0⟩
    ∧ (driverInit (emptyConfig ℚ)).position_limit = ⟨some 0, some 0⟩
    ∧ clip (driverInit (emptyConfig ℚ)).current_limit v = 0 := by
  have hzero : commandLimitInit (some (0:ℚ)) (some 0) none none = ⟨some 0, some 0⟩ := by
    norm_num [commandLimitInit, resolveLower, resolveUpper]
  have hcur : (driverInit (emptyConfig ℚ)).current_limit = ⟨some 0, some 0⟩ := hzero
  refine ⟨(commandLimitInit_isSome (userMin.getD 0) (userMax.getD 0) ml mu).1,
    (commandLimitInit_isSome (userMin.getD 0) (userMax.getD 0) ml mu).2,
    hcur, hzero, hzero, hzero, ?_⟩
  rw [hcur]
  simp only [clip, clipUpper]
  split_ifs <;> first | rfl | linarith

/-- C10: on every telemetry arrival, in any driver mode and for any
configured `vesc_id`, the published state sample has
`controller_id = 0x68`, zeroed `avg_id`, `avg_iq`, `pid_pos_now`,
`avg_vd`, `avg_vq`, and all three MOSFET temperatures equal to the
input sample's single PCB temperature. -/
theorem telemetry_republish_fields (d : Driver ℚ) (msg : VescStateIn ℚ) :
    (vescStateUpdatedCallback d msg).2.controller_id = 0x68
    ∧ (vescStateUpdatedCallback d msg).2.avg_id = 0
    ∧ (vescStateUpdatedCallback d msg).2.avg_iq = 0
    ∧ (vescStateUpdatedCallback d msg).2.pid_pos_now = 0
    ∧ (vescStateUpdatedCallback d msg).2.avg_vd = 0
    ∧ (vescStateUpdatedCallback d msg).2.avg_vq = 0
    ∧ (vescStateUpdatedCallback d msg).2.ntc_temp_mos1 = msg.temperature_pcb
    ∧ (vescStateUpdatedCallback d msg).2.ntc_temp_mos2 = msg.temperature_pcb
    ∧ (vescStateUpdatedCallback d msg).2.ntc_temp_mos3 = msg.temperature_pcb :=
  ⟨rfl, rfl, rfl, rfl, rfl, rfl, rfl, rfl, rfl⟩

/-- C8: the driver mode starts as INITIALIZING; the periodic tick moves
an INITIALIZING driver to OPERATING exactly when the telemetry latch is
set; and along every event sequence (ticks, telemetry arrivals, command
callbacks) a driver in OPERATING mode stays in OPERATING mode. -/
theorem driver_mode_monotonic (cfg : UserConfig ℚ) (piVal : ℚ) (d : Driver ℚ)
    (es : List (Event ℚ)) :
    (driverInit cfg).driver_mode = DriverMode.initializing
    ∧ (d.driver_mode = DriverMode.initializing →
        ((timerCallback d).driver_mode = DriverMode.operating ↔ d.state_msg_received = true))
    ∧ (d.driver_mode = DriverMode.operating →
        (run piVal d es).driver_mode = DriverMode.operating) := by
  refine ⟨rfl, ?_, fun h => run_preserves_operating piVal es d h⟩
  intro h
  rcases hrec : d.state_msg_received <;> simp [timerCallback, h, hrec]

/-- Witness for C8: one tick on an OPERATING driver leaves it
OPERATING. -/
theorem driver_mode_monotonic_witness :
    (run 0 { driverInit (emptyConfig ℚ) with driver_mode := DriverMode.operating }
      [Event.tick]).driver_mode = DriverMode.operating :=
  (driver_mode_monotonic (emptyConfig ℚ) 0
    { driverInit (emptyConfig ℚ) with driver_mode := DriverMode.operating }
    [Event.tick]).2.2 rfl

/-- C1, at the failing input: with the driver still in INITIALIZING
mode, a duty-cycle command is NOT a no-op — the callback's
assignment-guard forces the mode to OPERATING and the hardware
collaborator receives the clipped value, contradicting the claimed
zero-calls contract (the OPERATING half of the claim does hold: the
forwarded value is the clipped one). -/
theorem dutyCycle_reaches_hardware_while_initializing :
    (driverInit (emptyConfig ℚ)).driver_mode = DriverMode.initializing
    ∧ (dutyCycleCallback (driverInit (emptyConfig ℚ)) (1/2)).2
        = some (clip (driverInit (emptyConfig ℚ)).duty_cycle_limit (1/2))
    ∧ (dutyCycleCallback (driverInit (emptyConfig ℚ)) (1/2)).2 ≠ none
    ∧ (dutyCycleCallback (driverInit (emptyConfig ℚ)) (1/2)).1.driver_mode
        = DriverMode.operating := by
  refine ⟨rfl, rfl, ?_, rfl⟩
  simp [dutyCycleCallback]

/-- C2, at the failing input: with no user-configured override, the
duty-cycle parameters default to 0.0, so the duty-cycle limit resolves
to [0, 0] (not the feasible [-1, 1]) and clip maps 1.5, -2 and 0.3 all
to 0 instead of 1, -1 and 0.3. -/
theorem duty_cycle_unconfigured_clips_to_zero :
    (driverInit (emptyConfig ℚ)).duty_cycle_limit = ⟨some 0, some 0⟩
    ∧ clip (driverInit (emptyConfig ℚ)).duty_cycle_limit (3/2) = 0
    ∧ clip (driverInit (emptyConfig ℚ)).duty_cycle_limit (3/2) ≠ 1
    ∧ clip (driverInit (emptyConfig ℚ)).duty_cycle_limit (-2) = 0
    ∧ clip (driverInit (emptyConfig ℚ)).duty_cycle_limit (-2) ≠ -1
    ∧ clip (driverInit (emptyConfig ℚ)).duty_cycle_limit (3/10) = 0
    ∧ clip (driverInit (emptyConfig ℚ)).duty_cycle_limit (3/10) ≠ 3/10 := by
  have hlim : (driverInit (emptyConfig ℚ)).duty_cycle_limit = ⟨some 0, some 0⟩ := by
    norm_num [driverInit, emptyConfig, declareParameter, commandLimitInit,
      resolveLower, resolveUpper]
  refine ⟨hlim, ?_, ?_, ?_, ?_, ?_, ?_⟩ <;> rw [hlim] <;> norm_num [clip, clipUpper]

/-- C7, at the failing input: with no user-configured bound the position
parameters default to 0.0, so the position limit resolves to [0, 0]
rather than being absent; clipping does happen in radians and the
clipped value is then multiplied by 180/pi, but a command of pi/2
radians is therefore forwarded to the hardware collaborator as 0.0
degrees, not 90.0 — and it is forwarded even though the driver is still
INITIALIZING. -/
theorem position_pi_half_forwarded_as_zero :
    (driverInit (emptyConfig ℝ)).driver_mode = DriverMode.initializing
    ∧ (driverInit (emptyConfig ℝ)).position_limit = ⟨some 0, some 0⟩
    ∧ (positionCallback Real.pi (driverInit (emptyConfig ℝ)) (Real.pi / 2)).2 = some 0
    ∧ (positionCallback Real.pi (driverInit (emptyConfig ℝ)) (Real.pi / 2)).2 ≠ some 90 := by
  have hlim : (driverInit (emptyConfig ℝ)).position_limit = ⟨some 0, some 0⟩ := by
    norm_num [driverInit, emptyConfig, declareParameter, commandLimitInit,
      resolveLower, resolveUpper]
  have hpi : (0:ℝ) < Real.pi / 2 := by
    have := Real.pi_pos
    linarith
  have hclip : clip (driverInit (emptyConfig ℝ)).position_limit (Real.pi / 2) = 0 := by
    rw [hlim]
    simp only [clip, clipUpper]
    rw [if_neg (by linarith), if_pos hpi]
  refine ⟨rfl, hlim, ?_, ?_⟩
  · norm_num [positionCallback, hclip]
  · norm_num [positionCallback, hclip]

end VescDriver
